import Mathlib

/-!
Shallow embedding of the inter-agent messaging subsystem of the vibecraft
repository: the agent registry (`src/server/AgentRegistry.ts`) and the
message router (`src/server/AgentMessageRouter.ts`), together with proofs
of the behavioural properties stated in the specification.

JS `Map` objects are modelled as insertion-ordered association lists,
JS numbers holding millisecond timestamps as `Int`, and the real-valued
retry jitter (`Math.random() * 1000`) as `ℚ`.
-/

namespace Vibecraft

/-- `SessionStatus` from `src/shared/types.ts`. -/
inductive SessionStatus
  | idle
  | working
  | waiting
  | offline
deriving DecidableEq, Repr

/-- `AgentMessageRouting` from `src/shared/types.ts`. -/
inductive AgentMessageRouting
  | direct
  | capability
  | broadcastAll
deriving DecidableEq, Repr

/-- Opaque `Record<string, unknown>` payloads, modelled as key/value lists. -/
def RecordData : Type := List (String × String)

instance : DecidableEq RecordData := by
  unfold RecordData
  infer_instance

instance : Repr RecordData := by
  unfold RecordData
  infer_instance

/-- `AgentRegistryEntry` from `src/shared/types.ts` (the `metadata` field is
never read by any routing operation and is omitted). -/
structure AgentRegistryEntry where
  agentId : String
  name : String
  capabilities : List String
  status : SessionStatus
  backend : String
  cwd : String
  lastActivity : Int
  acceptsMessages : Bool
deriving DecidableEq, Repr

/-- `map.get(k)` on a JS `Map` modelled as an association list. -/
def mapGet {α : Type} (m : List (String × α)) (k : String) : Option α :=
  (m.find? (fun p => p.1 == k)).map (fun p => p.2)

/-- `map.set(k, v)`: replaces in place if the key exists, else appends
(JS `Map` keeps the original insertion position on overwrite). -/
def mapSet {α : Type} (m : List (String × α)) (k : String) (v : α) :
    List (String × α) :=
  match m with
  | [] => [(k, v)]
  | (k1, v1) :: rest =>
    if k1 == k then (k, v) :: rest else (k1, v1) :: mapSet rest k v

/-- `map.delete(k)` (entry removal; returns the new list only). -/
def mapDelete {α : Type} (m : List (String × α)) (k : String) :
    List (String × α) :=
  m.filter (fun p => p.1 != k)

/-- The registry's backing store `agents : Map<string, AgentRegistryEntry>`. -/
def Registry : Type := List (String × AgentRegistryEntry)

/-- JS `s.toLowerCase()`, character by character. -/
def jsToLowerCase (s : String) : String :=
  String.mk (s.toList.map Char.toLower)

/-- `sub` occurs as a contiguous run inside `s`. -/
def charsInclude (sub : List Char) : List Char → Bool
  | [] => sub.isEmpty
  | c :: rest => sub.isPrefixOf (c :: rest) || charsInclude sub rest

/-- JS `s.includes(sub)`: substring containment. -/
def strIncludes (s sub : String) : Bool :=
  charsInclude sub.toList s.toList

/-- JS `[...new Set(list)]`: first-occurrence deduplication. -/
def jsSetDedup (l : List String) : List String :=
  l.foldl (fun acc x => if acc.contains x then acc else acc ++ [x]) []

/-- The keyword rows of `inferCapabilities` (`AgentRegistry.ts` lines
103-120): each `if` pushes its capability when any of its keywords occurs
in the lowercased session name. -/
def inferCapabilitiesRaw (name : String) : List String :=
  let nameLower := jsToLowerCase name
  ["general"]
    ++ (if strIncludes nameLower "frontend" || strIncludes nameLower "ui" ||
          strIncludes nameLower "react" || strIncludes nameLower "vue" then
          ["frontend"] else [])
    ++ (if strIncludes nameLower "backend" || strIncludes nameLower "api" ||
          strIncludes nameLower "server" then ["backend"] else [])
    ++ (if strIncludes nameLower "database" || strIncludes nameLower "db" ||
          strIncludes nameLower "sql" || strIncludes nameLower "postgres" then
          ["database"] else [])
    ++ (if strIncludes nameLower "test" || strIncludes nameLower "spec" ||
          strIncludes nameLower "e2e" then ["testing"] else [])
    ++ (if strIncludes nameLower "devops" || strIncludes nameLower "deploy" ||
          strIncludes nameLower "ci" || strIncludes nameLower "docker" then
          ["devops"] else [])
    ++ (if strIncludes nameLower "security" || strIncludes nameLower "auth" ||
          strIncludes nameLower "secure" then ["security"] else [])

/-- `inferCapabilities` (`AgentRegistry.ts` lines 98-123): keyword rows
followed by `[...new Set(capabilities)]`. -/
def inferCapabilities (name : String) : List String :=
  jsSetDedup (inferCapabilitiesRaw name)

/-- `unregister` (`AgentRegistry.ts` lines 128-135); returns
(new store, `existed`, whether `notifyChange` fired). -/
def unregister (agents : Registry) (agentId : String) :
    Registry × Bool × Bool :=
  let existed := (mapGet agents agentId).isSome
  (mapDelete agents agentId, existed, existed)

/-- `updateStatus` (`AgentRegistry.ts` lines 140-147); `now` stands for
`Date.now()`; returns (new store, whether `notifyChange` fired). -/
def updateStatus (agents : Registry) (agentId : String)
    (status : SessionStatus) (now : Int) : Registry × Bool :=
  match mapGet agents agentId with
  | some entry =>
    (mapSet agents agentId { entry with status := status, lastActivity := now },
     true)
  | none => (agents, false)

/-- `getAll` (`AgentRegistry.ts` lines 175-177). -/
def getAll (agents : Registry) : List AgentRegistryEntry :=
  agents.map (fun p => p.2)

/-- `getMessageableAgents` (`AgentRegistry.ts` lines 182-184). -/
def getMessageableAgents (agents : Registry) : List AgentRegistryEntry :=
  (getAll agents).filter (fun a => a.acceptsMessages && a.status != .offline)

/-- `findByCapability` (`AgentRegistry.ts` lines 189-195). -/
def findByCapability (agents : Registry) (capability : String) :
    List AgentRegistryEntry :=
  (getAll agents).filter (fun a =>
    a.capabilities.contains capability && a.acceptsMessages &&
    a.status != .offline)

/-- The `statusPriority` table of `findBestForCapability`
(`AgentRegistry.ts` lines 208-213). -/
def statusPriority : SessionStatus → Nat
  | .idle => 0
  | .working => 1
  | .waiting => 2
  | .offline => 3

/-- The numeric sort comparator of `findBestForCapability`
(`AgentRegistry.ts` lines 215-219). -/
def agentCompare (a b : AgentRegistryEntry) : Int :=
  let statusDiff : Int :=
    (statusPriority a.status : Int) - (statusPriority b.status : Int)
  if statusDiff ≠ 0 then statusDiff else b.lastActivity - a.lastActivity

/-- `findBestForCapability` (`AgentRegistry.ts` lines 201-222): filter the
capability candidates, drop the excluded agent, stable-sort by the
comparator, return the head. -/
def findBestForCapability (agents : Registry) (capability : String)
    (excludeAgentId : Option String) : Option AgentRegistryEntry :=
  let candidates := (findByCapability agents capability).filter
    (fun a => some a.agentId != excludeAgentId)
  if candidates.isEmpty then none
  else (candidates.mergeSort (fun a b => agentCompare a b ≤ 0)).head?

/-- `SendAgentMessageRequest` from `src/shared/types.ts` (optional fields
as `Option`). -/
structure SendAgentMessageRequest where
  toAgentId : Option String := none
  toCapability : Option String := none
  message : String
  context : Option RecordData := none
  expectsResponse : Option Bool := none
  responseTimeout : Option Int := none
deriving DecidableEq, Repr

/-- `SendAgentMessageResponse` from `src/shared/types.ts`. -/
structure SendAgentMessageResponse where
  ok : Bool
  messageId : Option String := none
  targetAgentId : Option String := none
  error : Option String := none
  response : Option String := none
  responseData : Option RecordData := none
  responseSuccess : Option Bool := none
  responseReceivedAt : Option Int := none
deriving DecidableEq, Repr

/-- An `{ok:false, error}` validation-failure response of `sendMessage`
(`AgentMessageRouter.ts` lines 134-166): all other fields absent. -/
def errResp (msg : String) : SendAgentMessageResponse :=
  { ok := false, error := some msg }

/-- The validation and target-resolution prefix of `sendMessage`
(`AgentMessageRouter.ts` lines 132-167): each early `return` of an
`{ok:false, error}` object becomes an `Except.error`; success carries the
resolved routing mode and target agent id. -/
def sendMessageValidate (reg : Registry) (fromAgentId : String)
    (request : SendAgentMessageRequest) :
    Except SendAgentMessageResponse (AgentMessageRouting × String) :=
  match mapGet reg fromAgentId with
  | none => .error (errResp "Sender agent not found in registry")
  | some _ =>
    match request.toAgentId with
    | some tid =>
      match mapGet reg tid with
      | none => .error (errResp s!"Target agent not found: {tid}")
      | some targetAgent =>
        if !targetAgent.acceptsMessages then
          .error (errResp s!"Target agent does not accept messages: {tid}")
        else if targetAgent.status == .offline then
          .error (errResp s!"Target agent is offline: {tid}")
        else .ok (.direct, tid)
    | none =>
      match request.toCapability with
      | some cap =>
        match findBestForCapability reg cap (some fromAgentId) with
        | none => .error (errResp s!"No agent found with capability: {cap}")
        | some bestAgent => .ok (.capability, bestAgent.agentId)
      | none =>
        .error (errResp "Must specify either toAgentId or toCapability")

/-- `RETRY_CONFIG` (`AgentMessageRouter.ts` lines 58-62). -/
structure RetryConfig where
  maxAttempts : Nat
  baseDelayMs : ℚ
  maxDelayMs : ℚ

def RETRY_CONFIG : RetryConfig :=
  { maxAttempts := 3, baseDelayMs := 1000, maxDelayMs := 10000 }

/-- Observable outcome of one `deliverWithRetry` call tree: how many times
the delivery callback ran, the backoff delays slept between attempts, and
whether delivery ultimately succeeded. -/
structure RetryResult where
  attemptsMade : Nat
  delays : List ℚ
  delivered : Bool
deriving DecidableEq, Repr

/-- `deliverWithRetry` (`AgentMessageRouter.ts` lines 273-296).
`attemptOk n` is the outcome of the delivery callback on attempt `n`;
`jitter n` models the `Math.random() * 1000` drawn before attempt `n + 1`. -/
def deliverWithRetry (attemptOk : Nat → Bool) (jitter : Nat → ℚ)
    (attempt : Nat) : RetryResult :=
  if attemptOk attempt then ⟨1, [], true⟩
  else if h : RETRY_CONFIG.maxAttempts ≤ attempt then ⟨1, [], false⟩
  else
    let delay := min (RETRY_CONFIG.baseDelayMs * 2 ^ (attempt - 1) + jitter attempt)
      RETRY_CONFIG.maxDelayMs
    let rest := deliverWithRetry attemptOk jitter (attempt + 1)
    ⟨rest.attemptsMade + 1, delay :: rest.delays, rest.delivered⟩
termination_by RETRY_CONFIG.maxAttempts - attempt
decreasing_by
  simp only [RETRY_CONFIG] at h ⊢
  omega

/-- `AgentMessageResponseEvent` from `src/shared/types.ts` (the random
event `id` is omitted; `timestamp` is passed in as `now`). -/
structure AgentMessageResponseEvent where
  timestamp : Int
  sessionId : String
  cwd : String
  fromAgentId : String
  fromAgentName : String
  toAgentId : String
  inResponseTo : String
  response : String
  data : Option RecordData := none
  success : Bool
  error : Option String := none
deriving DecidableEq, Repr

/-- `PendingMessage` (`AgentMessageRouter.ts` lines 38-55). The stored
`resolve`/`reject` closures are modelled as state transformers below;
`resolverRegistered` records whether the promise executor of `sendMessage`
(lines 248-257) has already assigned `pendingPromiseResolve`. -/
structure PendingMessage where
  messageId : String
  fromAgentId : String
  fromAgentName : String
  toAgentId : String
  toAgentName : String
  sentAt : Int
  timeout : Int
  originalMessage : String
  deliveryAttempts : Nat
  responseReceived : Bool
  resolverRegistered : Bool
deriving DecidableEq, Repr

/-- Router-side mutable state touched by the pending-message machinery:
the `pendingMessages` map, the outcomes handed to callers' promises
(each `pendingPromiseResolve(result)` call, keyed by `messageId`), the
response events appended to `messageHistory`, the events pushed through
`broadcastEvent`, and the targets handed to `deliverWithRetry`. -/
structure RouterState where
  pending : List (String × PendingMessage)
  resolutions : List (String × SendAgentMessageResponse)
  history : List AgentMessageResponseEvent
  uiBroadcasts : List AgentMessageResponseEvent
  deliveries : List String
deriving DecidableEq, Repr

/-- `addToHistory` (`AgentMessageRouter.ts` lines 565-570): push, then
shift once the circular buffer exceeds `maxHistorySize = 100`. -/
def addToHistory (history : List AgentMessageResponseEvent)
    (event : AgentMessageResponseEvent) : List AgentMessageResponseEvent :=
  let pushed := history ++ [event]
  if pushed.length > 100 then pushed.drop 1 else pushed

/-- The `resolve` closure stored in a `PendingMessage`
(`AgentMessageRouter.ts` lines 216-220): delete the map entry, then call
`pendingPromiseResolve(result)` if the promise executor has assigned it. -/
def pendingResolve (st : RouterState) (p : PendingMessage)
    (result : SendAgentMessageResponse) : RouterState :=
  { st with
    pending := mapDelete st.pending p.messageId,
    resolutions :=
      if p.resolverRegistered then st.resolutions ++ [(p.messageId, result)]
      else st.resolutions }

/-- The `reject` closure stored in a `PendingMessage`
(`AgentMessageRouter.ts` lines 221-231): delete the map entry, then resolve
the caller's promise with an `{ok:false, messageId, targetAgentId, error}`
failure result if the executor has assigned the resolver. -/
def pendingReject (st : RouterState) (p : PendingMessage) (errMsg : String) :
    RouterState :=
  { st with
    pending := mapDelete st.pending p.messageId,
    resolutions :=
      if p.resolverRegistered then
        st.resolutions ++ [(p.messageId,
          { ok := false, messageId := some p.messageId,
            targetAgentId := some p.toAgentId, error := some errMsg })]
      else st.resolutions }

/-- The reject message built by `checkTimeouts` (`AgentMessageRouter.ts`
line 556). The JS template renders `timeout / 1000` as a float; integer
division agrees with it whenever `timeout` is a multiple of 1000. -/
def timeoutErrorMessage (p : PendingMessage) : String :=
  let secs := p.timeout / 1000
  s!"Response timeout after {secs} seconds"

/-- One iteration of the `checkTimeouts` loop body
(`AgentMessageRouter.ts` lines 550-559). -/
def sweepStep (now : Int) (acc : RouterState)
    (kp : String × PendingMessage) : RouterState :=
  if now - kp.2.sentAt > kp.2.timeout then
    let acc1 := pendingReject acc kp.2 (timeoutErrorMessage kp.2)
    { acc1 with pending := mapDelete acc1.pending kp.1 }
  else acc

/-- `checkTimeouts` (`AgentMessageRouter.ts` lines 548-560): sweep every
pending entry, rejecting and deleting the expired ones. -/
def checkTimeouts (st : RouterState) (now : Int) : RouterState :=
  st.pending.foldl (sweepStep now) st

/-- `clearPending` (`AgentMessageRouter.ts` lines 609-614): reject every
pending entry with "Router cleared", then clear the map. -/
def clearPending (st : RouterState) : RouterState :=
  let st1 := st.pending.foldl (fun acc kp => pendingReject acc kp.2 "Router cleared") st
  { st1 with pending := [] }

/-- The delivery-failure cleanup in `sendMessage`'s catch block
(`AgentMessageRouter.ts` lines 258-260): a direct
`pendingMessages.delete(messageId)` that invokes neither stored closure. -/
def deliveryFailureCleanup (st : RouterState) (messageId : String) :
    RouterState :=
  { st with pending := mapDelete st.pending messageId }

/-- Result record of `handleResponse`. -/
structure HandleResponseResult where
  delivered : Bool
  error : Option String := none
deriving DecidableEq, Repr

/-- `handleResponse` (`AgentMessageRouter.ts` lines 311-445). `now` stands
for `Date.now()`; `responseDeliveryError` is the outcome of the
`deliverWithRetry` call that re-delivers the response to the original
sender (`none` = delivered, `some msg` = the final failure's message). -/
def handleResponse (reg : Registry) (st : RouterState) (now : Int)
    (fromAgentId messageId response : String) (success : Bool)
    (error : Option String) (data : Option RecordData)
    (responseDeliveryError : Option String) :
    HandleResponseResult × RouterState :=
  let pendingLookup := mapGet st.pending messageId
  match mapGet reg fromAgentId with
  | none => (⟨false, some "Responding agent not found in registry"⟩, st)
  | some fromAgent =>
    match pendingLookup with
    | none =>
      let responseEvent : AgentMessageResponseEvent :=
        { timestamp := now, sessionId := fromAgentId, cwd := fromAgent.cwd,
          fromAgentId := fromAgentId, fromAgentName := fromAgent.name,
          toAgentId := "", inResponseTo := messageId, response := response,
          data := data, success := success, error := error }
      let st1 := { st with
        history := addToHistory st.history responseEvent,
        uiBroadcasts := st.uiBroadcasts ++ [responseEvent] }
      (⟨false, some "No pending message found (may have timed out)"⟩, st1)
    | some pending =>
      match mapGet reg pending.fromAgentId with
      | none =>
        let st1 := pendingReject st pending "Original sender no longer available"
        (⟨false, some "Original sender no longer available"⟩, st1)
      | some originalSender =>
        let responseEvent : AgentMessageResponseEvent :=
          { timestamp := now, sessionId := pending.fromAgentId,
            cwd := originalSender.cwd, fromAgentId := fromAgentId,
            fromAgentName := fromAgent.name, toAgentId := pending.fromAgentId,
            inResponseTo := messageId, response := response, data := data,
            success := success, error := error }
        let st1 := { st with
          history := addToHistory st.history responseEvent,
          uiBroadcasts := st.uiBroadcasts ++ [responseEvent] }
        let st2 := { st1 with deliveries := st1.deliveries ++ [pending.fromAgentId] }
        match responseDeliveryError with
        | none =>
          let st3 := pendingResolve st2 pending
            { ok := true, messageId := some messageId,
              targetAgentId := some pending.toAgentId, response := some response,
              responseData := data, responseSuccess := some success,
              responseReceivedAt := some now, error := error }
          (⟨true, none⟩, st3)
        | some errMsg =>
          let st3 := pendingResolve st2 pending
            { ok := false, messageId := some messageId,
              targetAgentId := some pending.toAgentId, response := some response,
              responseData := data, responseSuccess := some success,
              error := some ("Response received but delivery failed: " ++ errMsg) }
          (⟨false, some errMsg⟩, st3)

/-- The aggregate counters returned by `broadcast`. -/
structure BroadcastCounts where
  sent : Nat
  failed : Nat
deriving DecidableEq, Repr

/-- The target list of `broadcast` (`AgentMessageRouter.ts` lines 520-521). -/
def broadcastTargets (reg : Registry) (fromAgentId : String) :
    List AgentRegistryEntry :=
  (getMessageableAgents reg).filter
    (fun a => a.agentId != fromAgentId && a.status != .offline)

/-- `broadcast` (`AgentMessageRouter.ts` lines 488-543), restricted to its
delivery bookkeeping: unknown sender short-circuits to `{sent:0, failed:0}`
with no delivery; otherwise each target's `deliverWithRetry` outcome bumps
`sent` or `failed` independently. Returns the counters and the ids of the
agents a delivery was attempted to. -/
def broadcast (reg : Registry) (fromAgentId : String)
    (attemptOk : String → Nat → Bool) (jitter : String → Nat → ℚ) :
    BroadcastCounts × List String :=
  match mapGet reg fromAgentId with
  | none => (⟨0, 0⟩, [])
  | some _ =>
    let targets := broadcastTargets reg fromAgentId
    let counts := targets.foldl
      (fun c t =>
        if (deliverWithRetry (attemptOk t.agentId) (jitter t.agentId) 1).delivered
        then ⟨c.sent + 1, c.failed⟩ else ⟨c.sent, c.failed + 1⟩)
      ⟨0, 0⟩
    (counts, targets.map (fun t => t.agentId))

/-- The wait-registration state of one `sendMessage(expectsResponse=true)`
call (`AgentMessageRouter.ts` lines 199-257): whether the promise executor
has assigned `pendingPromiseResolve`, whether the entry is still in
`pendingMessages`, the entry's `responseReceived` flag, and what (if
anything) the caller's promise has been resolved with. -/
structure SendWaitState where
  resolverRegistered : Bool
  pendingInMap : Bool
  responseReceived : Bool
  promiseOutcome : Option SendAgentMessageResponse
deriving DecidableEq, Repr

/-- The state right after `pendingMessages.set(messageId, pending)`
(`AgentMessageRouter.ts` line 233), before delivery is awaited. -/
def sendWaitInit : SendWaitState :=
  { resolverRegistered := false, pendingInMap := true,
    responseReceived := false, promiseOutcome := none }

/-- The stored `resolve` closure (`AgentMessageRouter.ts` lines 216-220)
acting on the wait-registration state: set `responseReceived`, delete the
map entry, and call `pendingPromiseResolve(result)` only if it has already
been assigned. -/
def pendingResolveClosure (result : SendAgentMessageResponse)
    (s : SendWaitState) : SendWaitState :=
  { s with
    responseReceived := true,
    pendingInMap := false,
    promiseOutcome :=
      if s.resolverRegistered then some result else s.promiseOutcome }

/-- The promise executor of `sendMessage` (`AgentMessageRouter.ts` lines
248-257): assign `pendingPromiseResolve`, then look the entry up in
`pendingMessages` and test `pending?.responseReceived` — the body of that
`if` is empty in the source, so the lookup has no effect on the state. -/
def promiseExecutor (s : SendWaitState) : SendWaitState :=
  { s with resolverRegistered := true }

/-- Fixture: agent A of the `findBestForCapability` scenario
(idle, lastActivity 5, capability `testing`). -/
def exampleAgentA : AgentRegistryEntry :=
  { agentId := "A", name := "tester-a", capabilities := ["general", "testing"],
    status := .idle, backend := "tmux", cwd := "/a", lastActivity := 5,
    acceptsMessages := true }

/-- Fixture: agent B (working, lastActivity 10, capability `testing`). -/
def exampleAgentB : AgentRegistryEntry :=
  { agentId := "B", name := "tester-b", capabilities := ["general", "testing"],
    status := .working, backend := "tmux", cwd := "/b", lastActivity := 10,
    acceptsMessages := true }

/-- Fixture: agent C (idle, lastActivity 8, capability `testing`). -/
def exampleAgentC : AgentRegistryEntry :=
  { agentId := "C", name := "tester-c", capabilities := ["general", "testing"],
    status := .idle, backend := "tmux", cwd := "/c", lastActivity := 8,
    acceptsMessages := true }

/-- Fixture: registry holding agents A, B, C. -/
def exampleRegistryABC : Registry :=
  [("A", exampleAgentA), ("B", exampleAgentB), ("C", exampleAgentC)]

/-- Fixture: a pending message with its caller's resolver registered. -/
def examplePending : PendingMessage :=
  { messageId := "m1", fromAgentId := "A", fromAgentName := "tester-a",
    toAgentId := "B", toAgentName := "tester-b", sentAt := 1000,
    timeout := 5000, originalMessage := "run suite", deliveryAttempts := 1,
    responseReceived := false, resolverRegistered := true }

/-- Fixture: a router state holding exactly the pending entry `m1`. -/
def exampleRouterState : RouterState :=
  { pending := [("m1", examplePending)], resolutions := [], history := [],
    uiBroadcasts := [], deliveries := [] }

/-- Keys of the pending map agree with the `messageId` stored in each entry
(`sendMessage` always inserts with `set(messageId, pending)`). -/
def PendingKeysConsistent (pending : List (String × PendingMessage)) : Prop :=
  ∀ kp ∈ pending, kp.2.messageId = kp.1

instance (pending : List (String × PendingMessage)) :
    Decidable (PendingKeysConsistent pending) := by
  unfold PendingKeysConsistent
  infer_instance

/-- An agent record strictly better for capability routing than another:
lower status priority, or equal priority and strictly more recent
activity. -/
def StrictlyBetter (a b : AgentRegistryEntry) : Prop :=
  statusPriority a.status < statusPriority b.status ∨
    (statusPriority a.status = statusPriority b.status ∧
      b.lastActivity < a.lastActivity)

instance (a b : AgentRegistryEntry) : Decidable (StrictlyBetter a b) := by
  unfold StrictlyBetter
  infer_instance

/-- Fixture: a router state with nothing pending and nothing recorded. -/
def emptyRouterState : RouterState :=
  { pending := [], resolutions := [], history := [], uiBroadcasts := [],
    deliveries := [] }

/-- Fixture: agent D (idle, messageable), a third broadcast recipient. -/
def exampleAgentD : AgentRegistryEntry :=
  { agentId := "D", name := "helper-d", capabilities := ["general"],
    status := .idle, backend := "tmux", cwd := "/d", lastActivity := 3,
    acceptsMessages := true }

/-- Fixture: registry holding agents A, B, C, D. -/
def exampleRegistryABCD : Registry :=
  [("A", exampleAgentA), ("B", exampleAgentB), ("C", exampleAgentC),
   ("D", exampleAgentD)]

/-- Fixture: a delivery callback that throws on every attempt for agent C
and succeeds immediately for everyone else. -/
def exampleAttemptOk : String → Nat → Bool :=
  fun agentId _ => agentId != "C"

/-- Fixture: zero jitter for every target and attempt. -/
def exampleJitter : String → Nat → ℚ :=
  fun _ _ => 0

/-- The response event `handleResponse` records when no pending entry
exists for the message (`AgentMessageRouter.ts` lines 330-344):
`toAgentId` is the empty string. -/
def noPendingRespEvent (now : Int) (fromAgentId : String)
    (fromAgent : AgentRegistryEntry) (messageId response : String)
    (data : Option RecordData) (success : Bool) (error : Option String) :
    AgentMessageResponseEvent :=
  { timestamp := now, sessionId := fromAgentId, cwd := fromAgent.cwd,
    fromAgentId := fromAgentId, fromAgentName := fromAgent.name,
    toAgentId := "", inResponseTo := messageId, response := response,
    data := data, success := success, error := error }

/-- Fixture: an offline agent. -/
def exampleAgentOff : AgentRegistryEntry :=
  { agentId := "off", name := "sleeper", capabilities := ["general"],
    status := .offline, backend := "tmux", cwd := "/o", lastActivity := 1,
    acceptsMessages := true }

/-- Fixture: an agent that does not accept messages. -/
def exampleAgentNoAcc : AgentRegistryEntry :=
  { agentId := "noacc", name := "hermit", capabilities := ["general"],
    status := .idle, backend := "tmux", cwd := "/n", lastActivity := 2,
    acceptsMessages := false }

/-- Fixture: registry for the `sendMessage` validation scenarios. -/
def exampleRegistryValidate : Registry :=
  [("A", exampleAgentA), ("off", exampleAgentOff),
   ("noacc", exampleAgentNoAcc)]

theorem mapGet_eq_none_iff {α : Type} (m : List (String × α)) (k : String) :
    mapGet m k = none ↔ ∀ p ∈ m, p.1 ≠ k := by
  simp [mapGet, List.find?_eq_none]

theorem mapDelete_of_absent {α : Type} (m : List (String × α)) (k : String)
    (h : mapGet m k = none) : mapDelete m k = m := by
  rw [mapGet_eq_none_iff] at h
  apply List.filter_eq_self.mpr
  intro p hp
  simpa using h p hp

theorem jsSetDedup_go_mem (l acc : List String) (a : String) :
    a ∈ l.foldl (fun acc x => if acc.contains x then acc else acc ++ [x]) acc ↔
      a ∈ acc ∨ a ∈ l := by
  induction l generalizing acc with
  | nil => simp
  | cons x rest ih =>
    by_cases hx : acc.contains x
    · have hxa : x ∈ acc := by simpa using hx
      simp only [List.foldl_cons, if_pos hx, ih, List.mem_cons]
      constructor
      · rintro (h | h)
        · exact Or.inl h
        · exact Or.inr (Or.inr h)
      · rintro (h | h | h)
        · exact Or.inl h
        · exact Or.inl (h ▸ hxa)
        · exact Or.inr h
    · simp only [List.foldl_cons, if_neg hx, ih, List.mem_append,
        List.mem_singleton, List.mem_cons]
      tauto

theorem jsSetDedup_go_nodup (l acc : List String) (hacc : acc.Nodup) :
    (l.foldl (fun acc x => if acc.contains x then acc else acc ++ [x]) acc).Nodup := by
  induction l generalizing acc with
  | nil => exact hacc
  | cons x rest ih =>
    show (List.foldl _ (if acc.contains x then acc else acc ++ [x]) rest).Nodup
    by_cases hx : acc.contains x
    · rw [if_pos hx]
      exact ih acc hacc
    · have hxa : x ∉ acc := by simpa using hx
      rw [if_neg hx]
      exact ih (acc ++ [x]) (by simp [List.nodup_append, hacc, hxa])

theorem jsSetDedup_mem (l : List String) (a : String) :
    a ∈ jsSetDedup l ↔ a ∈ l := by
  unfold jsSetDedup
  rw [jsSetDedup_go_mem]
  simp

theorem jsSetDedup_nodup (l : List String) : (jsSetDedup l).Nodup :=
  jsSetDedup_go_nodup l [] List.nodup_nil

theorem mapGet_filter_none {α : Type} (m : List (String × α))
    (q : String × α → Bool) (k : String) (h : mapGet m k = none) :
    mapGet (m.filter q) k = none := by
  rw [mapGet_eq_none_iff] at h ⊢
  intro p hp
  exact h p (List.mem_filter.mp hp).1

theorem mapGet_mapDelete_self {α : Type} (m : List (String × α)) (k : String) :
    mapGet (mapDelete m k) k = none := by
  rw [mapGet_eq_none_iff]
  intro p hp
  have := (List.mem_filter.mp hp).2
  simpa using this

theorem mapGet_mapDelete_absent {α : Type} (m : List (String × α))
    (k k2 : String) (h : mapGet m k = none) :
    mapGet (mapDelete m k2) k = none :=
  mapGet_filter_none m _ k h

theorem sweepStep_pending_absent (now : Int) (acc : RouterState)
    (kp : String × PendingMessage) (k : String)
    (h : mapGet acc.pending k = none) :
    mapGet (sweepStep now acc kp).pending k = none := by
  unfold sweepStep
  split
  · exact mapGet_mapDelete_absent _ _ _
      (mapGet_mapDelete_absent _ _ _ (by simpa [pendingReject] using h))
  · exact h

theorem sweepStep_resolutions_mono (now : Int) (acc : RouterState)
    (kp : String × PendingMessage)
    (x : String × SendAgentMessageResponse) (h : x ∈ acc.resolutions) :
    x ∈ (sweepStep now acc kp).resolutions := by
  unfold sweepStep pendingReject
  split
  · split
    · simpa using Or.inl h
    · simpa using h
  · exact h

theorem sweep_go_pending_absent (now : Int)
    (l : List (String × PendingMessage)) (st : RouterState) (k : String)
    (h : mapGet st.pending k = none) :
    mapGet (l.foldl (sweepStep now) st).pending k = none := by
  induction l generalizing st with
  | nil => exact h
  | cons kp rest ih => exact ih _ (sweepStep_pending_absent now st kp k h)

theorem sweep_go_resolutions_mono (now : Int)
    (l : List (String × PendingMessage)) (st : RouterState)
    (x : String × SendAgentMessageResponse) (h : x ∈ st.resolutions) :
    x ∈ (l.foldl (sweepStep now) st).resolutions := by
  induction l generalizing st with
  | nil => exact h
  | cons kp rest ih => exact ih _ (sweepStep_resolutions_mono now st kp x h)

theorem sweep_go_expired (now : Int) (l : List (String × PendingMessage))
    (st : RouterState) (p : PendingMessage)
    (hmem : (p.messageId, p) ∈ l) (hexp : now - p.sentAt > p.timeout)
    (hreg : p.resolverRegistered = true) :
    mapGet (l.foldl (sweepStep now) st).pending p.messageId = none ∧
    (p.messageId,
      ({ ok := false, messageId := some p.messageId,
         targetAgentId := some p.toAgentId,
         error := some (timeoutErrorMessage p) } : SendAgentMessageResponse))
      ∈ (l.foldl (sweepStep now) st).resolutions := by
  induction l generalizing st with
  | nil => cases hmem
  | cons kp rest ih =>
    rcases List.mem_cons.mp hmem with heq | hrest
    · subst heq
      have hstep : sweepStep now st (p.messageId, p) =
          { st with
            pending := mapDelete (mapDelete st.pending p.messageId) p.messageId,
            resolutions := st.resolutions ++ [(p.messageId,
              { ok := false, messageId := some p.messageId,
                targetAgentId := some p.toAgentId,
                error := some (timeoutErrorMessage p) })] } := by
        unfold sweepStep pendingReject
        rw [if_pos hexp, if_pos hreg]
      rw [List.foldl_cons, hstep]
      constructor
      · exact sweep_go_pending_absent now rest _ p.messageId
          (mapGet_mapDelete_self _ _)
      · exact sweep_go_resolutions_mono now rest _ _ (by simp)
    · exact ih (sweepStep now st kp) hrest

/-- C4: every pending request whose elapsed time exceeds its timeout is,
in one run of the timeout sweep, removed from the pending map, and the
caller's `sendMessage` promise is resolved (not hung, not thrown) with the
failure result `{ok:false, messageId, targetAgentId, error}` carrying the
timeout message. -/
theorem c4_timeout_sweep (st : RouterState) (now : Int) (p : PendingMessage)
    (hmem : (p.messageId, p) ∈ st.pending)
    (hexp : now - p.sentAt > p.timeout)
    (hreg : p.resolverRegistered = true) :
    mapGet (checkTimeouts st now).pending p.messageId = none ∧
    (p.messageId,
      ({ ok := false, messageId := some p.messageId,
         targetAgentId := some p.toAgentId,
         error := some (timeoutErrorMessage p) } : SendAgentMessageResponse))
      ∈ (checkTimeouts st now).resolutions :=
  sweep_go_expired now st.pending st p hmem hexp hreg

/-- C4 witness: the fixture pending message `m1` (sent at 1000, timeout
5000) swept at time 10000. -/
theorem c4_timeout_sweep_witness :
    mapGet (checkTimeouts exampleRouterState 10000).pending
        examplePending.messageId = none ∧
    (examplePending.messageId,
      ({ ok := false, messageId := some examplePending.messageId,
         targetAgentId := some examplePending.toAgentId,
         error := some (timeoutErrorMessage examplePending) } :
         SendAgentMessageResponse))
      ∈ (checkTimeouts exampleRouterState 10000).resolutions :=
  c4_timeout_sweep exampleRouterState 10000 examplePending (by decide)
    (by decide) (by decide)

/-- C10: for an `agentId` absent from the registry, `updateStatus` leaves
the agent map unchanged and fires no change notification, and `unregister`
returns `false`, leaves the map unchanged, and fires no change
notification. -/
theorem c10_absent_agent_is_noop (agents : Registry) (agentId : String)
    (status : SessionStatus) (now : Int)
    (h : mapGet agents agentId = none) :
    updateStatus agents agentId status now = (agents, false) ∧
    unregister agents agentId = (agents, false, false) := by
  refine ⟨?_, ?_⟩
  · simp [updateStatus, h]
  · simp [unregister, h, mapDelete_of_absent agents agentId h]

/-- C10 witness: the empty registry at a concrete agent id. -/
theorem c10_absent_agent_is_noop_witness :
    updateStatus [] "ghost" SessionStatus.idle 7 = ([], false) ∧
    unregister [] "ghost" = ([], false, false) :=
  c10_absent_agent_is_noop [] "ghost" SessionStatus.idle 7 (by decide)

/-- C9: for every session display name, the inferred capability list
contains `general`, contains no duplicates, and every rule listed in the
claim fires on a case-insensitive substring match of its keywords, all
matching rules applying. -/
theorem c9_inferCapabilities_rules (name : String) :
    "general" ∈ inferCapabilities name ∧
    (inferCapabilities name).Nodup ∧
    ((strIncludes (jsToLowerCase name) "frontend" || strIncludes (jsToLowerCase name) "ui" ||
        strIncludes (jsToLowerCase name) "react") = true →
      "frontend" ∈ inferCapabilities name) ∧
    ((strIncludes (jsToLowerCase name) "backend" || strIncludes (jsToLowerCase name) "api" ||
        strIncludes (jsToLowerCase name) "server") = true →
      "backend" ∈ inferCapabilities name) ∧
    ((strIncludes (jsToLowerCase name) "database" || strIncludes (jsToLowerCase name) "db" ||
        strIncludes (jsToLowerCase name) "sql") = true →
      "database" ∈ inferCapabilities name) ∧
    ((strIncludes (jsToLowerCase name) "test" || strIncludes (jsToLowerCase name) "spec" ||
        strIncludes (jsToLowerCase name) "e2e") = true →
      "testing" ∈ inferCapabilities name) ∧
    ((strIncludes (jsToLowerCase name) "devops" || strIncludes (jsToLowerCase name) "deploy" ||
        strIncludes (jsToLowerCase name) "ci" || strIncludes (jsToLowerCase name) "docker") = true →
      "devops" ∈ inferCapabilities name) ∧
    ((strIncludes (jsToLowerCase name) "security" || strIncludes (jsToLowerCase name) "auth" ||
        strIncludes (jsToLowerCase name) "secure") = true →
      "security" ∈ inferCapabilities name) := by
  have hmem : ∀ c, c ∈ inferCapabilitiesRaw name → c ∈ inferCapabilities name :=
    fun c hc => (jsSetDedup_mem _ c).mpr hc
  refine ⟨?_, jsSetDedup_nodup _, ?_, ?_, ?_, ?_, ?_, ?_⟩
  · exact hmem _ (by simp [inferCapabilitiesRaw])
  · intro h
    refine hmem _ ?_
    have hcond : (strIncludes (jsToLowerCase name) "frontend" ||
        strIncludes (jsToLowerCase name) "ui" || strIncludes (jsToLowerCase name) "react" ||
        strIncludes (jsToLowerCase name) "vue") = true := by
      simp only [Bool.or_eq_true] at h ⊢
      tauto
    simp [inferCapabilitiesRaw, hcond]
  · intro h
    exact hmem _ (by simp [inferCapabilitiesRaw, h])
  · intro h
    refine hmem _ ?_
    have hcond : (strIncludes (jsToLowerCase name) "database" ||
        strIncludes (jsToLowerCase name) "db" || strIncludes (jsToLowerCase name) "sql" ||
        strIncludes (jsToLowerCase name) "postgres") = true := by
      simp only [Bool.or_eq_true] at h ⊢
      tauto
    simp [inferCapabilitiesRaw, hcond]
  · intro h
    exact hmem _ (by simp [inferCapabilitiesRaw, h])
  · intro h
    exact hmem _ (by simp [inferCapabilitiesRaw, h])
  · intro h
    exact hmem _ (by simp [inferCapabilitiesRaw, h])

/-- C9 witness: a name hitting every rule of the claim at once. -/
theorem c9_inferCapabilities_rules_witness :
    "general" ∈ inferCapabilities "Frontend API db test ci auth helper" ∧
    (inferCapabilities "Frontend API db test ci auth helper").Nodup ∧
    "frontend" ∈ inferCapabilities "Frontend API db test ci auth helper" ∧
    "backend" ∈ inferCapabilities "Frontend API db test ci auth helper" ∧
    "database" ∈ inferCapabilities "Frontend API db test ci auth helper" ∧
    "testing" ∈ inferCapabilities "Frontend API db test ci auth helper" ∧
    "devops" ∈ inferCapabilities "Frontend API db test ci auth helper" ∧
    "security" ∈ inferCapabilities "Frontend API db test ci auth helper" := by
  obtain ⟨h1, h2, h3, h4, h5, h6, h7, h8⟩ :=
    c9_inferCapabilities_rules "Frontend API db test ci auth helper"
  exact ⟨h1, h2, h3 (by decide), h4 (by decide), h5 (by decide),
    h6 (by decide), h7 (by decide), h8 (by decide)⟩

/-- C1: evaluating the wait-registration code at the racing interleaving.
If the stored resolve closure runs before `sendMessage`'s promise executor
assigns the resolver (the response is processed during the delivery await),
the caller's promise is never resolved — `pendingPromiseResolve` is unset
when the closure fires, and the executor's `responseReceived` recheck has
an empty body and cannot find the already-deleted map entry. In the
non-racing order the promise resolves with the full response. This
contradicts the spec's required atomicity guarantee and the source's own
comments (lines 199-200, 251-256). -/
theorem c1_race_loses_response (result : SendAgentMessageResponse) :
    (promiseExecutor (pendingResolveClosure result sendWaitInit)).promiseOutcome
        = none ∧
    (pendingResolveClosure result (promiseExecutor sendWaitInit)).promiseOutcome
        = some result := by
  constructor <;>
    simp [promiseExecutor, pendingResolveClosure, sendWaitInit]

/-- C2 counterexample: for the always-failing delivery callback with jitter
identically 0 (an allowed jitter value in `[0,1000)`), the delay before the
3rd attempt is 2000 ms, which does not lie in `[3000,4000)` as the claim
states. -/
theorem c2_third_attempt_delay_counterexample :
    (deliverWithRetry (fun _ => false) (fun _ => 0) 1).delays.get? 1
        = some 2000 ∧
    ¬ ((3000 : ℚ) ≤ 2000) := by
  constructor
  · simp [deliverWithRetry, RETRY_CONFIG]
    norm_num
  · norm_num

/-- C2 (amended): for a delivery callback failing on every attempt,
`deliverWithRetry` makes exactly 3 attempts; the delay before the 2nd
attempt is `min(1000*2^0 + jitter, 10000)` and lies in `[1000,2000)`, the
delay before the 3rd attempt is `min(1000*2^1 + jitter, 10000)` and lies in
`[2000,3000)` (for every jitter value in `[0,1000)`), and the 3rd failure
propagates to the caller as a delivery failure. -/
theorem c2_retry_schedule (jitter : Nat → ℚ)
    (h : ∀ a, 0 ≤ jitter a ∧ jitter a < 1000) :
    (deliverWithRetry (fun _ => false) jitter 1).attemptsMade = 3 ∧
    (deliverWithRetry (fun _ => false) jitter 1).delivered = false ∧
    (deliverWithRetry (fun _ => false) jitter 1).delays
        = [1000 + jitter 1, 2000 + jitter 2] ∧
    1000 ≤ 1000 + jitter 1 ∧ 1000 + jitter 1 < 2000 ∧
    2000 ≤ 2000 + jitter 2 ∧ 2000 + jitter 2 < 3000 := by
  obtain ⟨h1a, h1b⟩ := h 1
  obtain ⟨h2a, h2b⟩ := h 2
  have m1 : min (RETRY_CONFIG.baseDelayMs * 2 ^ (1 - 1) + jitter 1)
      RETRY_CONFIG.maxDelayMs = 1000 + jitter 1 := by
    rw [min_eq_left]
    · norm_num [RETRY_CONFIG]
    · simp only [RETRY_CONFIG]
      norm_num
      linarith
  have m2 : min (RETRY_CONFIG.baseDelayMs * 2 ^ (2 - 1) + jitter 2)
      RETRY_CONFIG.maxDelayMs = 2000 + jitter 2 := by
    rw [min_eq_left]
    · norm_num [RETRY_CONFIG]
    · simp only [RETRY_CONFIG]
      norm_num
      linarith
  have hunf : deliverWithRetry (fun _ => false) jitter 1 =
      ⟨3, [1000 + jitter 1, 2000 + jitter 2], false⟩ := by
    rw [deliverWithRetry]
    simp only [Bool.false_eq_true, if_false, RETRY_CONFIG]
    rw [dif_neg (by norm_num)]
    rw [deliverWithRetry]
    simp only [Bool.false_eq_true, if_false, RETRY_CONFIG]
    rw [dif_neg (by norm_num)]
    rw [deliverWithRetry]
    simp only [Bool.false_eq_true, if_false, RETRY_CONFIG]
    rw [dif_pos (by norm_num)]
    simp only [RETRY_CONFIG] at m1 m2
    simp [m1, m2]
    refine ⟨by linarith, ?_⟩
    have e : (1000 * 2 + jitter 2 : ℚ) = 2000 + jitter 2 := by ring
    rw [e, inf_eq_left]
    linarith
  refine ⟨by rw [hunf], by rw [hunf], by rw [hunf], by linarith, by linarith,
    by linarith, by linarith⟩

/-- C2 witness: the amended schedule at the constant jitter 500. -/
theorem c2_retry_schedule_witness :
    (deliverWithRetry (fun _ => false) (fun _ => (500 : ℚ)) 1).attemptsMade = 3 ∧
    (deliverWithRetry (fun _ => false) (fun _ => (500 : ℚ)) 1).delivered = false ∧
    (deliverWithRetry (fun _ => false) (fun _ => (500 : ℚ)) 1).delays
        = [1000 + 500, 2000 + 500] ∧
    1000 ≤ 1000 + (500 : ℚ) ∧ 1000 + (500 : ℚ) < 2000 ∧
    2000 ≤ 2000 + (500 : ℚ) ∧ 2000 + (500 : ℚ) < 3000 :=
  c2_retry_schedule (fun _ => (500 : ℚ)) (fun _ => by norm_num)

theorem handleResponse_unknown_agent (reg : Registry) (st : RouterState)
    (now : Int) (fromAgentId messageId response : String) (success : Bool)
    (error : Option String) (data : Option RecordData)
    (rde : Option String) (h : mapGet reg fromAgentId = none) :
    handleResponse reg st now fromAgentId messageId response success error
        data rde
      = (⟨false, some "Responding agent not found in registry"⟩, st) := by
  simp [handleResponse, h]

theorem handleResponse_no_pending (reg : Registry) (st : RouterState)
    (now : Int) (fromAgentId messageId response : String) (success : Bool)
    (error : Option String) (data : Option RecordData) (rde : Option String)
    (fromAgent : AgentRegistryEntry)
    (hagent : mapGet reg fromAgentId = some fromAgent)
    (hnone : mapGet st.pending messageId = none) :
    handleResponse reg st now fromAgentId messageId response success error
        data rde
      = (⟨false, some "No pending message found (may have timed out)"⟩,
         { st with
           history := addToHistory st.history (noPendingRespEvent now
             fromAgentId fromAgent messageId response data success error),
           uiBroadcasts := st.uiBroadcasts ++ [noPendingRespEvent now
             fromAgentId fromAgent messageId response data success error] }) := by
  simp [handleResponse, hagent, hnone, noPendingRespEvent]

theorem pendingReject_resolutions_filter (acc : RouterState)
    (p : PendingMessage) (e : String) (mid : String)
    (h : p.messageId ≠ mid) :
    (pendingReject acc p e).resolutions.filter (fun r => r.1 == mid)
      = acc.resolutions.filter (fun r => r.1 == mid) := by
  unfold pendingReject
  split
  · simp [List.filter_append, h]
  · rfl

theorem sweepStep_resolutions_filter (now : Int) (acc : RouterState)
    (kp : String × PendingMessage) (mid : String)
    (h : kp.2.messageId ≠ mid) :
    (sweepStep now acc kp).resolutions.filter (fun r => r.1 == mid)
      = acc.resolutions.filter (fun r => r.1 == mid) := by
  unfold sweepStep
  split
  · simpa using pendingReject_resolutions_filter acc kp.2 _ mid h
  · rfl

theorem sweep_go_resolutions_filter (now : Int) (mid : String)
    (l : List (String × PendingMessage)) (st : RouterState)
    (h : ∀ kp ∈ l, kp.2.messageId ≠ mid) :
    ((l.foldl (sweepStep now) st).resolutions.filter (fun r => r.1 == mid))
      = st.resolutions.filter (fun r => r.1 == mid) := by
  induction l generalizing st with
  | nil => rfl
  | cons kp rest ih =>
    rw [List.foldl_cons, ih _ (fun x hx => h x (List.mem_cons_of_mem kp hx)),
      sweepStep_resolutions_filter now st kp mid (h kp (List.mem_cons_self kp rest))]

theorem clear_go_resolutions_filter (mid : String)
    (l : List (String × PendingMessage)) (st : RouterState)
    (h : ∀ kp ∈ l, kp.2.messageId ≠ mid) :
    ((l.foldl (fun acc kp => pendingReject acc kp.2 "Router cleared") st).resolutions.filter
        (fun r => r.1 == mid))
      = st.resolutions.filter (fun r => r.1 == mid) := by
  induction l generalizing st with
  | nil => rfl
  | cons kp rest ih =>
    rw [List.foldl_cons, ih _ (fun x hx => h x (List.mem_cons_of_mem kp hx)),
      pendingReject_resolutions_filter st kp.2 _ mid (h kp (List.mem_cons_self kp rest))]

/-- C3 counterexample: the delivery-failure cleanup in `sendMessage`
(lines 258-260) is a direct `pendingMessages.delete` that removes the
pending entry without invoking its resolve or reject closure: although the
entry's resolver is registered, the removal records no resolution — the
closures, by construction, resolve the caller's promise whenever the
resolver is registered. -/
theorem c3_direct_deletion_counterexample :
    mapGet exampleRouterState.pending "m1" = some examplePending ∧
    examplePending.resolverRegistered = true ∧
    mapGet (deliveryFailureCleanup exampleRouterState "m1").pending "m1"
        = none ∧
    (deliveryFailureCleanup exampleRouterState "m1").resolutions
        = exampleRouterState.resolutions := by
  refine ⟨by decide, by decide, by decide, rfl⟩

/-- C3 (amended): pending entries are removed by their resolve/reject
closures or by the direct map deletions in the source (the delivery-failure
cleanup in `sendMessage`; redundant deletes after `reject` in the sweep and
in `clearPending`); consumption is still exactly-once: once no pending
entry exists for a `messageId`, every later event naming it — response
arrival, timeout sweep, router shutdown, delivery-failure cleanup — finds
no pending entry, adds no resolution for it, and `handleResponse` reports
it undelivered. -/
theorem c3_consumed_at_most_once (reg : Registry) (st : RouterState)
    (mid : String) (now : Int) (fromAgentId response : String)
    (success : Bool) (error : Option String) (data : Option RecordData)
    (rde : Option String)
    (hcons : PendingKeysConsistent st.pending)
    (hnone : mapGet st.pending mid = none) :
    (handleResponse reg st now fromAgentId mid response success error
        data rde).1.delivered = false ∧
    mapGet (handleResponse reg st now fromAgentId mid response success error
        data rde).2.pending mid = none ∧
    (handleResponse reg st now fromAgentId mid response success error
        data rde).2.resolutions = st.resolutions ∧
    mapGet (checkTimeouts st now).pending mid = none ∧
    (checkTimeouts st now).resolutions.filter (fun r => r.1 == mid)
      = st.resolutions.filter (fun r => r.1 == mid) ∧
    mapGet (clearPending st).pending mid = none ∧
    (clearPending st).resolutions.filter (fun r => r.1 == mid)
      = st.resolutions.filter (fun r => r.1 == mid) ∧
    mapGet (deliveryFailureCleanup st mid).pending mid = none ∧
    (deliveryFailureCleanup st mid).resolutions = st.resolutions := by
  have hkeys : ∀ kp ∈ st.pending, kp.2.messageId ≠ mid := by
    intro kp hkp
    rw [hcons kp hkp]
    exact (mapGet_eq_none_iff _ _).mp hnone kp hkp
  have hhr : (handleResponse reg st now fromAgentId mid response success
      error data rde).1.delivered = false ∧
      (handleResponse reg st now fromAgentId mid response success error
        data rde).2.pending = st.pending ∧
      (handleResponse reg st now fromAgentId mid response success error
        data rde).2.resolutions = st.resolutions := by
    cases hreg : mapGet reg fromAgentId with
    | none =>
      rw [handleResponse_unknown_agent reg st now fromAgentId mid response
        success error data rde hreg]
      exact ⟨rfl, rfl, rfl⟩
    | some fromAgent =>
      rw [handleResponse_no_pending reg st now fromAgentId mid response
        success error data rde fromAgent hreg hnone]
      exact ⟨rfl, rfl, rfl⟩
  refine ⟨hhr.1, ?_, hhr.2.2, ?_, ?_, ?_, ?_, ?_, rfl⟩
  · rw [hhr.2.1]
    exact hnone
  · exact sweep_go_pending_absent now st.pending st mid hnone
  · exact sweep_go_resolutions_filter now mid st.pending st hkeys
  · simp [clearPending, mapGet]
  · show ((st.pending.foldl (fun acc kp => pendingReject acc kp.2
        "Router cleared") st).resolutions.filter (fun r => r.1 == mid))
      = st.resolutions.filter (fun r => r.1 == mid)
    exact clear_go_resolutions_filter mid st.pending st hkeys
  · exact mapGet_mapDelete_self _ _

/-- C3 witness: the events applied at a state with nothing pending. -/
theorem c3_consumed_at_most_once_witness :
    (handleResponse exampleRegistryABC emptyRouterState 0 "A" "m1" "ok"
        true none none none).1.delivered = false ∧
    mapGet (checkTimeouts emptyRouterState 0).pending "m1" = none ∧
    mapGet (clearPending emptyRouterState).pending "m1" = none := by
  have h := c3_consumed_at_most_once exampleRegistryABC emptyRouterState
    "m1" 0 "A" "ok" true none none none (by decide) (by decide)
  exact ⟨h.1, h.2.2.2.1, h.2.2.2.2.2.1⟩

/-- C7: `handleResponse` fails gracefully. An unknown responding agent
returns `{delivered:false, error}` with the state untouched (no delivery,
no history, no resolution change); a missing pending entry returns
`{delivered:false, error:"No pending message found (may have timed out)"}`
while appending the response event to history and emitting it to
observers, with the pending map, the resolutions, and the delivery log
untouched — so a second `handleResponse` for an already-consumed
`messageId` cannot alter the first resolution's outcome. -/
theorem c7_handleResponse_graceful (reg : Registry) (st : RouterState)
    (now : Int) (fromAgentId messageId response : String) (success : Bool)
    (error : Option String) (data : Option RecordData) (rde : Option String) :
    (mapGet reg fromAgentId = none →
      handleResponse reg st now fromAgentId messageId response success error
          data rde
        = (⟨false, some "Responding agent not found in registry"⟩, st)) ∧
    (∀ fromAgent, mapGet reg fromAgentId = some fromAgent →
      mapGet st.pending messageId = none →
      handleResponse reg st now fromAgentId messageId response success error
          data rde
        = (⟨false, some "No pending message found (may have timed out)"⟩,
           { st with
             history := addToHistory st.history (noPendingRespEvent now
               fromAgentId fromAgent messageId response data success error),
             uiBroadcasts := st.uiBroadcasts ++ [noPendingRespEvent now
               fromAgentId fromAgent messageId response data success error] })) := by
  constructor
  · intro h
    exact handleResponse_unknown_agent reg st now fromAgentId messageId
      response success error data rde h
  · intro fromAgent hagent hnone
    exact handleResponse_no_pending reg st now fromAgentId messageId
      response success error data rde fromAgent hagent hnone

/-- C7 witness: `handleResponse` called twice for the same `messageId`;
the second call reports `delivered:false` with the no-pending error and
leaves the pending map and the first call's resolutions unchanged. -/
theorem c7_handleResponse_graceful_witness :
    (handleResponse exampleRegistryABC
        (handleResponse exampleRegistryABC exampleRouterState 5000 "B" "m1"
          "42 passed" true none none none).2
        6000 "B" "m1" "42 passed" true none none none).1
      = ⟨false, some "No pending message found (may have timed out)"⟩ ∧
    (handleResponse exampleRegistryABC
        (handleResponse exampleRegistryABC exampleRouterState 5000 "B" "m1"
          "42 passed" true none none none).2
        6000 "B" "m1" "42 passed" true none none none).2.resolutions
      = (handleResponse exampleRegistryABC exampleRouterState 5000 "B" "m1"
          "42 passed" true none none none).2.resolutions ∧
    (handleResponse exampleRegistryABC exampleRouterState 5000 "B" "m1"
        "42 passed" true none none none).2.pending = [] := by
  have h := (c7_handleResponse_graceful exampleRegistryABC
    (handleResponse exampleRegistryABC exampleRouterState 5000 "B" "m1"
      "42 passed" true none none none).2
    6000 "B" "m1" "42 passed" true none none none).2 exampleAgentB
    (by decide) (by decide)
  refine ⟨?_, ?_, by decide⟩
  · rw [h]
  · rw [h]

theorem broadcast_counts_fold (ok : AgentRegistryEntry → Bool)
    (l : List AgentRegistryEntry) (init : BroadcastCounts) :
    l.foldl (fun c t => if ok t then ⟨c.sent + 1, c.failed⟩
        else ⟨c.sent, c.failed + 1⟩) init
      = ⟨init.sent + (l.filter ok).length,
         init.failed + (l.filter (fun t => !ok t)).length⟩ := by
  induction l generalizing init with
  | nil => simp
  | cons t rest ih =>
    cases h : ok t <;>
      simp [List.foldl_cons, h, ih, List.filter_cons,
        BroadcastCounts.mk.injEq] <;>
      omega

theorem length_filter_partition {α : Type} (p : α → Bool) (l : List α) :
    (l.filter p).length + (l.filter (fun x => !p x)).length = l.length := by
  induction l with
  | nil => rfl
  | cons x rest ih =>
    by_cases h : p x <;> simp [List.filter_cons, h] <;> omega

/-- C8: a broadcast from an unknown sender returns `{sent:0, failed:0}`
without delivering anything; otherwise delivery is attempted to exactly the
messageable agents (acceptsMessages and not offline) minus the sender, each
target's delivery outcome is counted independently, and
`sent + failed` equals the number of such targets. -/
theorem c8_broadcast_counts (reg : Registry) (fromAgentId : String)
    (attemptOk : String → Nat → Bool) (jitter : String → Nat → ℚ) :
    (mapGet reg fromAgentId = none →
      broadcast reg fromAgentId attemptOk jitter = (⟨0, 0⟩, [])) ∧
    ((mapGet reg fromAgentId).isSome = true →
      broadcastTargets reg fromAgentId
        = (getMessageableAgents reg).filter (fun a => a.agentId != fromAgentId) ∧
      (broadcast reg fromAgentId attemptOk jitter).2
        = (broadcastTargets reg fromAgentId).map (fun t => t.agentId) ∧
      (broadcast reg fromAgentId attemptOk jitter).1.sent
        = ((broadcastTargets reg fromAgentId).filter (fun t =>
            (deliverWithRetry (attemptOk t.agentId) (jitter t.agentId)
              1).delivered)).length ∧
      (broadcast reg fromAgentId attemptOk jitter).1.failed
        = ((broadcastTargets reg fromAgentId).filter (fun t =>
            !(deliverWithRetry (attemptOk t.agentId) (jitter t.agentId)
              1).delivered)).length ∧
      (broadcast reg fromAgentId attemptOk jitter).1.sent
          + (broadcast reg fromAgentId attemptOk jitter).1.failed
        = (broadcastTargets reg fromAgentId).length) := by
  constructor
  · intro h
    simp [broadcast, h]
  · intro hsome
    cases hreg : mapGet reg fromAgentId with
    | none => rw [hreg] at hsome; cases hsome
    | some a =>
      have htargets : broadcastTargets reg fromAgentId
          = (getMessageableAgents reg).filter
              (fun x => x.agentId != fromAgentId) := by
        unfold broadcastTargets
        apply List.filter_congr
        intro x hx
        have hoff : (x.status != SessionStatus.offline) = true :=
          (Bool.and_elim_right (List.mem_filter.mp hx).2)
        rw [hoff, Bool.and_true]
      have hfold := broadcast_counts_fold
        (fun t => (deliverWithRetry (attemptOk t.agentId) (jitter t.agentId)
          1).delivered)
        (broadcastTargets reg fromAgentId) ⟨0, 0⟩
      have hbc : broadcast reg fromAgentId attemptOk jitter
          = (⟨((broadcastTargets reg fromAgentId).filter (fun t =>
                (deliverWithRetry (attemptOk t.agentId) (jitter t.agentId)
                  1).delivered)).length,
              ((broadcastTargets reg fromAgentId).filter (fun t =>
                !(deliverWithRetry (attemptOk t.agentId) (jitter t.agentId)
                  1).delivered)).length⟩,
             (broadcastTargets reg fromAgentId).map (fun t => t.agentId)) := by
        simp only [broadcast, hreg]
        rw [hfold]
        simp
      refine ⟨htargets, by rw [hbc], by rw [hbc], by rw [hbc], ?_⟩
      rw [hbc]
      exact length_filter_partition _ _

/-- C8 witness: sender A broadcasting to the three messageable agents
B, C, D, where every delivery attempt to C fails: `{sent:2, failed:1}`. -/
theorem c8_broadcast_counts_witness :
    (broadcast exampleRegistryABCD "A" exampleAttemptOk exampleJitter).1.sent
        = 2 ∧
    (broadcast exampleRegistryABCD "A" exampleAttemptOk exampleJitter).1.failed
        = 1 ∧
    (broadcast exampleRegistryABCD "A" exampleAttemptOk exampleJitter).2
        = ["B", "C", "D"] := by
  have h := (c8_broadcast_counts exampleRegistryABCD "A" exampleAttemptOk
    exampleJitter).2 (by decide)
  obtain ⟨-, hlog, hsent, hfailed, -⟩ := h
  have ht : broadcastTargets exampleRegistryABCD "A"
      = [exampleAgentB, exampleAgentC, exampleAgentD] := by decide
  have hB : (deliverWithRetry (exampleAttemptOk "B") (exampleJitter "B")
      1).delivered = true := by
    rw [deliverWithRetry]
    simp [exampleAttemptOk]
  have hC : (deliverWithRetry (exampleAttemptOk "C") (exampleJitter "C")
      1).delivered = false := by
    rw [deliverWithRetry]
    simp only [exampleAttemptOk, RETRY_CONFIG]
    norm_num
    rw [deliverWithRetry]
    simp only [exampleAttemptOk, RETRY_CONFIG]
    norm_num
    rw [deliverWithRetry]
    simp [exampleAttemptOk, RETRY_CONFIG]
  have hD : (deliverWithRetry (exampleAttemptOk "D") (exampleJitter "D")
      1).delivered = true := by
    rw [deliverWithRetry]
    simp [exampleAttemptOk]
  refine ⟨?_, ?_, ?_⟩
  · rw [hsent, ht]
    simp [List.filter_cons, exampleAgentB, exampleAgentC, exampleAgentD,
      hB, hC, hD]
  · rw [hfailed, ht]
    simp [List.filter_cons, exampleAgentB, exampleAgentC, exampleAgentD,
      hB, hC, hD]
  · rw [hlog, ht]
    decide

/-- C6: `sendMessage` validation failures are returned as `{ok:false,
error}`, never thrown: an absent sender yields the sender-not-found error;
with `toAgentId` given, an absent target, a target with
`acceptsMessages=false`, and an offline target yield their respective
errors in that order (not-accepting is reported even for an offline
non-accepting target); with only `toCapability` given, an empty
`findBestForCapability` result excluding the sender yields the
no-capability-match error; with neither target field, the
missing-routing-target error. -/
theorem c6_sendMessage_validation (reg : Registry) (fromAgentId : String)
    (req : SendAgentMessageRequest) :
    (mapGet reg fromAgentId = none →
      sendMessageValidate reg fromAgentId req
        = .error (errResp "Sender agent not found in registry")) ∧
    ((mapGet reg fromAgentId).isSome = true →
      (∀ tid, req.toAgentId = some tid →
        (mapGet reg tid = none →
          sendMessageValidate reg fromAgentId req
            = .error (errResp s!"Target agent not found: {tid}")) ∧
        (∀ t, mapGet reg tid = some t →
          (t.acceptsMessages = false →
            sendMessageValidate reg fromAgentId req
              = .error (errResp s!"Target agent does not accept messages: {tid}")) ∧
          (t.acceptsMessages = true → t.status = .offline →
            sendMessageValidate reg fromAgentId req
              = .error (errResp s!"Target agent is offline: {tid}")))) ∧
      (req.toAgentId = none → ∀ cap, req.toCapability = some cap →
        findBestForCapability reg cap (some fromAgentId) = none →
        sendMessageValidate reg fromAgentId req
          = .error (errResp s!"No agent found with capability: {cap}")) ∧
      (req.toAgentId = none → req.toCapability = none →
        sendMessageValidate reg fromAgentId req
          = .error (errResp "Must specify either toAgentId or toCapability"))) := by
  constructor
  · intro h
    simp [sendMessageValidate, h]
  · intro hsome
    cases hreg : mapGet reg fromAgentId with
    | none => rw [hreg] at hsome; cases hsome
    | some sender =>
      refine ⟨?_, ?_, ?_⟩
      · intro tid htid
        constructor
        · intro htarget
          simp [sendMessageValidate, hreg, htid, htarget]
        · intro t htarget
          constructor
          · intro hacc
            simp [sendMessageValidate, hreg, htid, htarget, hacc]
          · intro hacc hoff
            simp [sendMessageValidate, hreg, htid, htarget, hacc, hoff]
      · intro htid cap hcap hbest
        simp [sendMessageValidate, hreg, htid, hcap, hbest]
      · intro htid hcap
        simp [sendMessageValidate, hreg, htid, hcap]

/-- C6 witness: the six validation failures at concrete registries and
requests. -/
theorem c6_sendMessage_validation_witness :
    sendMessageValidate [] "ghost" { message := "hi" }
      = .error (errResp "Sender agent not found in registry") ∧
    sendMessageValidate exampleRegistryValidate "A"
        { toAgentId := some "X", message := "hi" }
      = .error (errResp "Target agent not found: X") ∧
    sendMessageValidate exampleRegistryValidate "A"
        { toAgentId := some "noacc", message := "hi" }
      = .error (errResp "Target agent does not accept messages: noacc") ∧
    sendMessageValidate exampleRegistryValidate "A"
        { toAgentId := some "off", message := "hi" }
      = .error (errResp "Target agent is offline: off") ∧
    sendMessageValidate exampleRegistryValidate "A"
        { toCapability := some "payments", message := "hi" }
      = .error (errResp "No agent found with capability: payments") ∧
    sendMessageValidate exampleRegistryValidate "A" { message := "hi" }
      = .error (errResp "Must specify either toAgentId or toCapability") := by
  refine ⟨(c6_sendMessage_validation [] "ghost" _).1 (by decide),
    ?_, ?_, ?_, ?_, ?_⟩
  · exact (((c6_sendMessage_validation exampleRegistryValidate "A"
      { toAgentId := some "X", message := "hi" }).2 (by decide)).1 "X"
      rfl).1 (by decide)
  · exact ((((c6_sendMessage_validation exampleRegistryValidate "A"
      { toAgentId := some "noacc", message := "hi" }).2 (by decide)).1
      "noacc" rfl).2 exampleAgentNoAcc (by decide)).1 (by decide)
  · exact ((((c6_sendMessage_validation exampleRegistryValidate "A"
      { toAgentId := some "off", message := "hi" }).2 (by decide)).1
      "off" rfl).2 exampleAgentOff (by decide)).2 (by decide) (by decide)
  · exact ((c6_sendMessage_validation exampleRegistryValidate "A"
      { toCapability := some "payments", message := "hi" }).2
      (by decide)).2.1 rfl "payments" rfl (by decide)
  · exact ((c6_sendMessage_validation exampleRegistryValidate "A"
      { message := "hi" }).2 (by decide)).2.2 rfl rfl

theorem agentCompare_le_iff (a b : AgentRegistryEntry) :
    agentCompare a b ≤ 0 ↔
      (statusPriority a.status < statusPriority b.status ∨
        (statusPriority a.status = statusPriority b.status ∧
          b.lastActivity ≤ a.lastActivity)) := by
  simp only [agentCompare]
  split_ifs with h <;> omega

theorem agentLe_trans (a b c : AgentRegistryEntry)
    (hab : decide (agentCompare a b ≤ 0) = true)
    (hbc : decide (agentCompare b c ≤ 0) = true) :
    decide (agentCompare a c ≤ 0) = true := by
  simp only [decide_eq_true_eq, agentCompare_le_iff] at hab hbc ⊢
  omega

theorem agentLe_total (a b : AgentRegistryEntry) :
    (decide (agentCompare a b ≤ 0) || decide (agentCompare b a ≤ 0)) = true := by
  simp only [Bool.or_eq_true, decide_eq_true_eq, agentCompare_le_iff]
  omega

theorem strictlyBetter_irrefl (r : AgentRegistryEntry) :
    ¬ StrictlyBetter r r := by
  unfold StrictlyBetter
  omega

theorem not_strictlyBetter_of_compare_le (y r : AgentRegistryEntry)
    (h : agentCompare r y ≤ 0) : ¬ StrictlyBetter y r := by
  rw [agentCompare_le_iff] at h
  unfold StrictlyBetter
  omega

theorem bestOf_spec (l : List AgentRegistryEntry) :
    ((if l.isEmpty then none
        else (l.mergeSort (fun a b => agentCompare a b ≤ 0)).head?) = none ↔
      l = []) ∧
    (∀ r, (if l.isEmpty then none
        else (l.mergeSort (fun a b => agentCompare a b ≤ 0)).head?) = some r →
      r ∈ l ∧ ∀ y ∈ l, ¬ StrictlyBetter y r) := by
  cases l with
  | nil => simp
  | cons hd tl =>
    have hperm := List.mergeSort_perm (hd :: tl)
      (fun a b => decide (agentCompare a b ≤ 0))
    have hsorted := List.sorted_mergeSort agentLe_trans agentLe_total (hd :: tl)
    constructor
    · cases hms : (hd :: tl).mergeSort
          (fun a b => decide (agentCompare a b ≤ 0)) with
      | nil =>
        rw [hms] at hperm
        have := hperm.length_eq
        simp at this
      | cons a t => simp [hms]
    · intro r hr
      simp only [List.isEmpty_cons, if_neg] at hr
      cases hms : (hd :: tl).mergeSort
          (fun a b => decide (agentCompare a b ≤ 0)) with
      | nil =>
        rw [hms] at hr
        cases hr
      | cons a t =>
        rw [hms] at hr hperm hsorted
        have hra : r = a := by
          simp at hr
          exact hr.symm
        subst hra
        refine ⟨hperm.mem_iff.mp (by simp), ?_⟩
        intro y hy
        have hyms : y ∈ r :: t := hperm.mem_iff.mpr hy
        rcases List.mem_cons.mp hyms with rfl | hyt
        · exact strictlyBetter_irrefl y
        · have hle := (List.pairwise_cons.mp hsorted).1 y hyt
          simp only [decide_eq_true_eq] at hle
          exact not_strictlyBetter_of_compare_le y r hle

/-- C5: `findBestForCapability(cap, excludeAgentId?)` returns a member of
`findByCapability(cap)` minus the excluded agent that is minimal under the
order: status priority `idle(0) < working(1) < waiting(2) < offline(3)`
first, higher `lastActivity` as tie-break; it returns nothing iff that
candidate set is empty. -/
theorem c5_findBestForCapability (agents : Registry) (capability : String)
    (excludeAgentId : Option String) :
    (findBestForCapability agents capability excludeAgentId = none ↔
      (findByCapability agents capability).filter
        (fun a => some a.agentId != excludeAgentId) = []) ∧
    (∀ r, findBestForCapability agents capability excludeAgentId = some r →
      r ∈ (findByCapability agents capability).filter
        (fun a => some a.agentId != excludeAgentId) ∧
      ∀ y ∈ (findByCapability agents capability).filter
          (fun a => some a.agentId != excludeAgentId),
        ¬ StrictlyBetter y r) :=
  bestOf_spec _

/-- C5 witness: among candidates A(idle, lastActivity 5),
B(working, lastActivity 10), C(idle, lastActivity 8), all holding the
capability `testing`, agent C is selected. -/
theorem c5_findBestForCapability_witness :
    findBestForCapability exampleRegistryABC "testing" none
      = some exampleAgentC := by
  obtain ⟨hnone, hsome⟩ := c5_findBestForCapability exampleRegistryABC
    "testing" none
  have hc : (findByCapability exampleRegistryABC "testing").filter
      (fun a => some a.agentId != none)
      = [exampleAgentA, exampleAgentB, exampleAgentC] := by decide
  cases hfb : findBestForCapability exampleRegistryABC "testing" none with
  | none =>
    have := hnone.mp hfb
    rw [hc] at this
    cases this
  | some r =>
    obtain ⟨hrmem, hrmin⟩ := hsome r hfb
    rw [hc] at hrmem hrmin
    have hCmem : exampleAgentC ∈
        [exampleAgentA, exampleAgentB, exampleAgentC] := by simp
    rcases List.mem_cons.mp hrmem with rfl | hr2
    · exact absurd (by decide : StrictlyBetter exampleAgentC exampleAgentA)
        (hrmin exampleAgentC hCmem)
    · rcases List.mem_cons.mp hr2 with rfl | hr3
      · exact absurd (by decide : StrictlyBetter exampleAgentC exampleAgentB)
          (hrmin exampleAgentC hCmem)
      · rcases List.mem_cons.mp hr3 with rfl | hr4
        · rfl
        · cases hr4

end Vibecraft
